import Mathlib

/-!
# gke-identity-service-migrator: subject classification and rewriting

A shallow embedding of `cmd/gke-identity-service-migrator/main.go`.

A Go string is a sequence of bytes. The strings of this program (flag values,
names of Kubernetes objects) are taken to be well-formed UTF-8 text and held as
Lean `String`, a sequence of code points; on such text the byte-wise length
test, slicing at the length of a prefix or suffix, comparison and `+` agree
with the same operations on code points, which is what the definitions below
use. The three `strings` functions called by the program are embedded from
their Go standard library bodies (length test followed by a slice comparison).
-/

namespace strings

/-- Go `strings.HasPrefix`: `len(s) >= len(prefix) && s[:len(prefix)] == prefix`. -/
def HasPrefix (s pre : String) : Bool :=
  decide (s.length ≥ pre.length) && (String.mk (s.data.take pre.length) == pre)

/-- Go `strings.HasSuffix`:
`len(s) >= len(suffix) && s[len(s)-len(suffix):] == suffix`. -/
def HasSuffix (s suf : String) : Bool :=
  decide (s.length ≥ suf.length) &&
    (String.mk (s.data.drop (s.length - suf.length)) == suf)

/-- Go `strings.TrimPrefix`: `s[len(prefix):]` when `HasPrefix(s, prefix)`,
otherwise `s`. -/
def TrimPrefix (s pre : String) : String :=
  if HasPrefix s pre then String.mk (s.data.drop pre.length) else s

end strings

/-- The `rbacv1.Subject` record of the Kubernetes API (`k8s.io/api/rbac/v1`):
the three fields the program reads and writes, and `Namespace`, which a
composite literal that omits it leaves at the zero value `""`. -/
structure Subject where
  Kind : String
  APIGroup : String
  Name : String
  Namespace : String
  deriving DecidableEq, Repr

/-- The `subjectRecognizer` struct. -/
structure subjectRecognizer where
  userIncludePrefix : String
  userIncludeSuffix : String
  groupsIncludePrefix : String
  groupsExcludeSuffix : String
  workforcePoolName : String
  deriving DecidableEq, Repr

namespace subjectRecognizer

/-- Method `(r *subjectRecognizer) GetFederatedUser(sub) (string, bool)`. -/
def GetFederatedUser (r : subjectRecognizer) (sub : Subject) : String × Bool :=
  if sub.APIGroup != "rbac.authorization.k8s.io" then ("", false)
  else if sub.Kind != "User" then ("", false)
  else if strings.HasPrefix sub.Name "system:" then ("", false)
  else if !strings.HasPrefix sub.Name r.userIncludePrefix then ("", false)
  else if !strings.HasSuffix sub.Name r.userIncludeSuffix then ("", false)
  else (strings.TrimPrefix sub.Name r.userIncludePrefix, true)

/-- Method `(r *subjectRecognizer) GetFederatedGroup(sub) (string, bool)`. -/
def GetFederatedGroup (r : subjectRecognizer) (sub : Subject) : String × Bool :=
  if sub.APIGroup != "rbac.authorization.k8s.io" then ("", false)
  else if sub.Kind != "Group" then ("", false)
  else if strings.HasPrefix sub.Name "system:" then ("", false)
  else if !strings.HasPrefix sub.Name r.groupsIncludePrefix then ("", false)
  else if strings.HasSuffix sub.Name r.groupsExcludeSuffix then ("", false)
  else (strings.TrimPrefix sub.Name r.groupsIncludePrefix, true)

/-- Method `(r *subjectRecognizer) MigrateSubject(subIn) rbacv1.Subject`.
`fmt.Sprintf` with two `%s` verbs on string arguments is the concatenation of
the format's literal pieces with the arguments. -/
def MigrateSubject (r : subjectRecognizer) (subIn : Subject) : Subject :=
  match r.GetFederatedUser subIn with
  | (name, true) =>
    { APIGroup := "rbac.authorization.k8s.io"
      Kind := "User"
      Name := "principal://iam.googleapis.com/locations/global/workforcePools/"
        ++ r.workforcePoolName ++ "/subject/" ++ name
      Namespace := "" }
  | (_, false) =>
    match r.GetFederatedGroup subIn with
    | (name, true) =>
      { APIGroup := "rbac.authorization.k8s.io"
        Kind := "Group"
        Name := "principalSet://iam.googleapis.com/locations/global/workforcePools/"
          ++ r.workforcePoolName ++ "/group/" ++ name
        Namespace := "" }
    | (_, false) => subIn

end subjectRecognizer

open subjectRecognizer

/-! ## Bindings and the four commands

`rbacv1.ClusterRoleBinding` and `rbacv1.RoleBinding` have the same three
parts (object metadata, subjects, role reference); one record stands for both.
Of `metav1.ObjectMeta` the record keeps the fields the program writes, and
`Namespace` and `Labels` for the ones it leaves alone. -/

/-- The `metav1.Time` of `CreationTimestamp`; `none` is the zero value that
`Reset()` stores. -/
abbrev Time := Option Int

/-- The part of `metav1.ObjectMeta` the program touches. A Go map is a list of
key/value pairs. -/
structure ObjectMeta where
  Name : String
  Namespace : String
  Labels : List (String × String)
  Annotations : List (String × String)
  CreationTimestamp : Time
  ManagedFields : List String
  ResourceVersion : String
  UID : String
  deriving DecidableEq, Repr

/-- The `rbacv1.RoleRef` record. -/
structure RoleRef where
  APIGroup : String
  Kind : String
  Name : String
  deriving DecidableEq, Repr

/-- A `rbacv1.ClusterRoleBinding` or `rbacv1.RoleBinding`. -/
structure Binding where
  ObjectMeta : ObjectMeta
  Subjects : List Subject
  RoleRef : RoleRef
  deriving DecidableEq, Repr

/-- A `rbacv1.ClusterRoleBindingList` or `rbacv1.RoleBindingList`: the items
and the continue token of its `ListMeta`. -/
structure BindingList where
  Items : List Binding
  Continue : String
  deriving DecidableEq, Repr

/-- The call `kc.RbacV1().ClusterRoleBindings().List(ctx, ListOptions{Continue: t, Limit: 500})`
(or the `RoleBindings(NamespaceAll)` one) as a function of the continue token
`t`: a page, or the error of the call. -/
abbrev Lister := String → Except String BindingList

/-- The two library calls that set up the cluster connection:
`clientcmd.BuildConfigFromFlags(masterUrl, kubeconfigPath)` and
`kubernetes.NewForConfig(config)`, the client being used only to list. -/
structure Kube (Config : Type) where
  BuildConfigFromFlags : String → String → Except String Config
  NewForConfig : Config → Except String Lister

/-- Go builtin `delete(m, key)` on a map held as a list of pairs. -/
def delete (m : List (String × String)) (key : String) : List (String × String) :=
  m.filter (fun kv => kv.1 != key)

/-- Lines 136-146 and 355-365: the loop over `crb.Subjects` that sets the
local `federated`, started at `false`. -/
def federatedSubjects (rec : subjectRecognizer) (subjects : List Subject) : Bool :=
  subjects.foldl
    (fun federated sub =>
      if (rec.GetFederatedUser sub).2 then true
      else if (rec.GetFederatedGroup sub).2 then true
      else federated)
    false

/-- Lines 135-151 and 354-370: the loop over the items of one page, appending
the federated ones to the list collected so far. -/
def appendFederated (rec : subjectRecognizer) (items : List Binding)
    (federatedCRBs : List Binding) : List Binding :=
  items.foldl
    (fun federatedCRBs crb =>
      if federatedSubjects rec crb.Subjects then federatedCRBs ++ [crb] else federatedCRBs)
    federatedCRBs

/-- The `FindCRBCommand` struct. -/
structure FindCRBCommand where
  kubeConfig : String
  userIncludePrefix : String
  userIncludeSuffix : String
  groupsIncludePrefix : String
  groupsExcludeSuffix : String
  deriving DecidableEq, Repr

/-- Lines 125-158 of `FindCRBCommand.Execute`: the paging loop. `fuel` bounds
the number of pages fetched; `none` is a loop that has not ended within
`fuel` pages, `some (.error _)` the logged listing error (exit failure),
`some (.ok l)` the final `federatedCRBs.Items`. -/
def FindCRBCommand.listFederated (rec : subjectRecognizer) (kc : Lister) :
    Nat → String → List Binding → Option (Except String (List Binding))
  | 0, _, _ => none
  | fuel + 1, continueToken, federatedCRBs =>
    match kc continueToken with
    | .error err => some (.error ("Error while listing ClusterRoleBindings: " ++ err))
    | .ok crbs =>
      let federatedCRBs := appendFederated rec crbs.Items federatedCRBs
      if crbs.Continue == "" then some (.ok federatedCRBs)
      else FindCRBCommand.listFederated rec kc fuel crbs.Continue federatedCRBs

/-- Method `(c *FindCRBCommand) Execute`. The result is the logged error
(exit failure) or the list handed to the YAML printer (exit success); `none`
when the paging loop has not ended within `fuel` pages. The local `rec` is
written `rec_`. -/
def FindCRBCommand.Execute {Config : Type} (c : FindCRBCommand) (k : Kube Config)
    (fuel : Nat) : Option (Except String (List Binding)) :=
  if c.userIncludeSuffix == "" then
    some (.error "Error: --user-include-suffix must be specified.")
  else
    let rec_ : subjectRecognizer :=
      { userIncludePrefix := c.userIncludePrefix
        userIncludeSuffix := c.userIncludeSuffix
        groupsIncludePrefix := c.groupsIncludePrefix
        groupsExcludeSuffix := c.groupsExcludeSuffix
        workforcePoolName := "" }
    match k.BuildConfigFromFlags "" c.kubeConfig with
    | .error err =>
      some (.error ("Error while initializing Kubernetes REST config: " ++ err))
    | .ok config =>
      match k.NewForConfig config with
      | .error err => some (.error ("Error while initializing Kubernetes client: " ++ err))
      | .ok kc => FindCRBCommand.listFederated rec_ kc fuel "" []

/-- The `FindRBCommand` struct. -/
structure FindRBCommand where
  kubeConfig : String
  userIncludePrefix : String
  userIncludeSuffix : String
  groupsIncludePrefix : String
  groupsExcludeSuffix : String
  deriving DecidableEq, Repr

/-- Lines 344-377 of `FindRBCommand.Execute`: the paging loop, as
`FindCRBCommand.listFederated`. -/
def FindRBCommand.listFederated (rec : subjectRecognizer) (kc : Lister) :
    Nat → String → List Binding → Option (Except String (List Binding))
  | 0, _, _ => none
  | fuel + 1, continueToken, federatedRBs =>
    match kc continueToken with
    | .error err => some (.error ("Error while listing RoleBindings: " ++ err))
    | .ok crbs =>
      let federatedRBs := appendFederated rec crbs.Items federatedRBs
      if crbs.Continue == "" then some (.ok federatedRBs)
      else FindRBCommand.listFederated rec kc fuel crbs.Continue federatedRBs

/-- Method `(c *FindRBCommand) Execute`. -/
def FindRBCommand.Execute {Config : Type} (c : FindRBCommand) (k : Kube Config)
    (fuel : Nat) : Option (Except String (List Binding)) :=
  if c.userIncludeSuffix == "" then
    some (.error "Error: --user-email-suffix must be specified.")
  else
    let rec_ : subjectRecognizer :=
      { userIncludePrefix := c.userIncludePrefix
        userIncludeSuffix := c.userIncludeSuffix
        groupsIncludePrefix := c.groupsIncludePrefix
        groupsExcludeSuffix := c.groupsExcludeSuffix
        workforcePoolName := "" }
    match k.BuildConfigFromFlags "" c.kubeConfig with
    | .error err =>
      some (.error ("Error while initializing Kubernetes REST config: " ++ err))
    | .ok config =>
      match k.NewForConfig config with
      | .error err => some (.error ("Error while initializing Kubernetes client: " ++ err))
      | .ok kc => FindRBCommand.listFederated rec_ kc fuel "" []

/-- The sequence of bindings a lister enumerates from a continue token on:
the items of the pages in the order they are fetched, up to the first page
without a continue token. `none` when that page is not reached within `fuel`
pages, an error when a call fails. -/
def enumerated (kc : Lister) : Nat → String → Option (Except String (List Binding))
  | 0, _ => none
  | fuel + 1, continueToken =>
    match kc continueToken with
    | .error err => some (.error err)
    | .ok page =>
      if page.Continue == "" then some (.ok page.Items)
      else
        match enumerated kc fuel page.Continue with
        | some (.ok rest) => some (.ok (page.Items ++ rest))
        | other => other

/-- Lines 260-263 and 478-481: the output subjects, started empty and
appended to once per input subject. -/
def migrateSubjects (rec : subjectRecognizer) (subjects : List Subject) : List Subject :=
  subjects.foldl (fun out sub => out ++ [rec.MigrateSubject sub]) []

/-- Lines 248-263 and 466-481: the body of the rewrite loop for one binding.
`DeepCopy` of a value record is the record. -/
def rewriteBinding (rec : subjectRecognizer) (crbIn : Binding) : Binding :=
  let crbOut := crbIn
  let crbOut := { crbOut with ObjectMeta := { crbOut.ObjectMeta with
    Annotations := delete crbOut.ObjectMeta.Annotations
      "kubectl.kubernetes.io/last-applied-configuration" } }
  let crbOut := { crbOut with ObjectMeta := { crbOut.ObjectMeta with
    CreationTimestamp := none } }
  let crbOut := { crbOut with ObjectMeta := { crbOut.ObjectMeta with ManagedFields := [] } }
  let crbOut := { crbOut with ObjectMeta := { crbOut.ObjectMeta with ResourceVersion := "" } }
  let crbOut := { crbOut with ObjectMeta := { crbOut.ObjectMeta with UID := "" } }
  let crbOut := { crbOut with ObjectMeta := { crbOut.ObjectMeta with
    Name := crbIn.ObjectMeta.Name ++ "-wfidf" } }
  { crbOut with Subjects := migrateSubjects rec crbIn.Subjects }

/-- The `RewriteCRBCommand` struct. -/
structure RewriteCRBCommand where
  userIncludePrefix : String
  userIncludeSuffix : String
  groupsIncludePrefix : String
  groupsExcludeSuffix : String
  workforcePoolName : String
  deriving DecidableEq, Repr

/-- Lines 246-266 of `RewriteCRBCommand.Execute`: the loop over
`inputCRBs.Items` that builds `rewrittenCRBs.Items`. -/
def RewriteCRBCommand.rewriteItems (rec : subjectRecognizer) (items : List Binding) :
    List Binding :=
  items.foldl (fun rewrittenCRBs crbIn => rewrittenCRBs ++ [rewriteBinding rec crbIn]) []

/-- Method `(c *RewriteCRBCommand) Execute`. `inputCRBs` is the list read from
standard input (empty when the visitor stored none); the result is the logged
error or the list handed to the YAML printer. The local `rec` is written `rec_`. -/
def RewriteCRBCommand.Execute (c : RewriteCRBCommand) (inputCRBs : BindingList) :
    Except String (List Binding) :=
  if c.userIncludeSuffix == "" then
    .error "Error: --user-email-suffix must be specified."
  else if c.workforcePoolName == "" then
    .error "Error: --workforce-pool-name must be specified."
  else
    let rec_ : subjectRecognizer :=
      { userIncludePrefix := c.userIncludePrefix
        userIncludeSuffix := c.userIncludeSuffix
        groupsIncludePrefix := c.groupsIncludePrefix
        groupsExcludeSuffix := c.groupsExcludeSuffix
        workforcePoolName := c.workforcePoolName }
    .ok (RewriteCRBCommand.rewriteItems rec_ inputCRBs.Items)

/-- The `RewriteRBCommand` struct. -/
structure RewriteRBCommand where
  userIncludePrefix : String
  userIncludeSuffix : String
  groupsIncludePrefix : String
  groupsExcludeSuffix : String
  workforcePoolName : String
  deriving DecidableEq, Repr

/-- Lines 464-484 of `RewriteRBCommand.Execute`: the loop over
`inputRBs.Items` that builds `rewrittenRBs.Items`. -/
def RewriteRBCommand.rewriteItems (rec : subjectRecognizer) (items : List Binding) :
    List Binding :=
  items.foldl (fun rewrittenRBs rbIn => rewrittenRBs ++ [rewriteBinding rec rbIn]) []

/-- Method `(c *RewriteRBCommand) Execute`. -/
def RewriteRBCommand.Execute (c : RewriteRBCommand) (inputRBs : BindingList) :
    Except String (List Binding) :=
  if c.userIncludeSuffix == "" then
    .error "Error: --user-email-suffix must be specified."
  else if c.workforcePoolName == "" then
    .error "Error: --workforce-pool-name must be specified."
  else
    let rec_ : subjectRecognizer :=
      { userIncludePrefix := c.userIncludePrefix
        userIncludeSuffix := c.userIncludeSuffix
        groupsIncludePrefix := c.groupsIncludePrefix
        groupsExcludeSuffix := c.groupsExcludeSuffix
        workforcePoolName := c.workforcePoolName }
    .ok (RewriteRBCommand.rewriteItems rec_ inputRBs.Items)


/-! ## Usage texts and flag defaults of the find commands -/

/-- Method `(*FindCRBCommand) Usage`: the raw string literal of lines 79-83. -/
def FindCRBCommand.Usage : String :=
  "find-clusterrolebindings [--kubeconfig] [--user-email-suffix] :\n" ++
  "  Identify ClusterRoleBinding objects in the cluster that appear to refer to federated users or groups.\n" ++
  "  Users are recognized by an email suffix.\n" ++
  "  Groups are assumed to be federated unless they have a system: prefix\n"

/-- Method `(c *FindCRBCommand) SetFlags`: the value of `c` when no flag is
given on the command line, each field at the default its `StringVar` call
registers. `kubeConfigDefault` is the local of lines 87-90 (empty, or the
`.kube/config` path under the home directory). -/
def FindCRBCommand.SetFlags (kubeConfigDefault : String) : FindCRBCommand :=
  { kubeConfig := kubeConfigDefault
    userIncludePrefix := ""
    userIncludeSuffix := ""
    groupsIncludePrefix := ""
    groupsExcludeSuffix := "" }

/-- Method `(*FindRBCommand) Usage`: the raw string literal of lines 298-302. -/
def FindRBCommand.Usage : String :=
  "find-rolebindings [--kubeconfig] [--user-email-suffix] :\n" ++
  "  Identify RoleBinding objects in the cluster that appear to refer to federated users or groups.\n" ++
  "  Users are recognized by an email suffix.\n" ++
  "  Groups are assumed to be federated unless they have a system: prefix\n"

/-- Method `(c *FindRBCommand) SetFlags`, as `FindCRBCommand.SetFlags`. -/
def FindRBCommand.SetFlags (kubeConfigDefault : String) : FindRBCommand :=
  { kubeConfig := kubeConfigDefault
    userIncludePrefix := ""
    userIncludeSuffix := ""
    groupsIncludePrefix := ""
    groupsExcludeSuffix := "" }

/-! ## Example data

The rules, subjects and bindings of the specification's scenarios, used to
evaluate the definitions above on concrete inputs. -/

namespace Scenario

/-- Rules of scenarios 1 and 2 with the pool `my-pool`. -/
def rules : subjectRecognizer :=
  { userIncludePrefix := ""
    userIncludeSuffix := "@example.com"
    groupsIncludePrefix := ""
    groupsExcludeSuffix := "@groups.example.com"
    workforcePoolName := "my-pool" }

/-- The federated user of scenario 1. -/
def alice : Subject :=
  { Kind := "User", APIGroup := "rbac.authorization.k8s.io",
    Name := "alice@example.com", Namespace := "" }

/-- A service account subject. -/
def builder : Subject :=
  { Kind := "ServiceAccount", APIGroup := "", Name := "builder", Namespace := "default" }

/-- The binding of scenario 4, subjects `[federated-user, service-account]`. -/
def adminBinding : Binding :=
  { ObjectMeta :=
      { Name := "admin-binding", Namespace := "", Labels := [],
        Annotations := [("kubectl.kubernetes.io/last-applied-configuration", "kind: x")],
        CreationTimestamp := some 1700000000, ManagedFields := ["kubectl"],
        ResourceVersion := "42", UID := "0000-1111" }
    Subjects := [alice, builder]
    RoleRef := { APIGroup := "rbac.authorization.k8s.io", Kind := "ClusterRole",
                 Name := "cluster-admin" } }

/-- A binding whose only subject is the service account. -/
def builderBinding : Binding :=
  { adminBinding with
    ObjectMeta := { adminBinding.ObjectMeta with Name := "builder-binding" }
    Subjects := [builder] }

/-- A binding with no subjects. -/
def emptyBinding : Binding :=
  { adminBinding with
    ObjectMeta := { adminBinding.ObjectMeta with Name := "empty-binding" }
    Subjects := [] }

/-- A lister with two pages: the first, under the empty token, continues with
the token `next`. -/
def twoPages : Lister := fun continueToken =>
  if continueToken == "" then .ok { Items := [emptyBinding, builderBinding], Continue := "next" }
  else if continueToken == "next" then .ok { Items := [adminBinding], Continue := "" }
  else .error "unknown continue token"

/-- A group subject with an ordinary name. -/
def developers : Subject :=
  { Kind := "Group", APIGroup := "rbac.authorization.k8s.io",
    Name := "developers", Namespace := "" }

/-- A binding whose only subject is the group `developers`. -/
def developersBinding : Binding :=
  { adminBinding with
    ObjectMeta := { adminBinding.ObjectMeta with Name := "developers-binding" }
    Subjects := [developers] }

/-- A lister with the single page `[developersBinding]`. -/
def onePage : Lister := fun _ =>
  .ok { Items := [developersBinding], Continue := "" }

/-- A cluster connection that is set up without error and lists `onePage`. -/
def kube : Kube Unit :=
  { BuildConfigFromFlags := fun _ _ => .ok ()
    NewForConfig := fun _ => .ok onePage }

/-- The flags of `find-clusterrolebindings --user-include-suffix=@example.com`:
every other flag at its default. -/
def findCRBFlags : FindCRBCommand :=
  { FindCRBCommand.SetFlags "/home/u/.kube/config" with userIncludeSuffix := "@example.com" }

/-- The flags of `find-rolebindings --user-include-suffix=@example.com`. -/
def findRBFlags : FindRBCommand :=
  { FindRBCommand.SetFlags "/home/u/.kube/config" with userIncludeSuffix := "@example.com" }

end Scenario

/-! ## Facts about the string functions -/

theorem strings.eq_of_data_eq {a b : String} (h : a.data = b.data) : a = b := by
  cases a; cases b; simp_all

theorem strings.length_eq_data_length (a : String) : a.length = a.data.length := by
  cases a; rfl

theorem strings.take_eq_iff {α : Type} (l p : List α) :
    (l.length ≥ p.length ∧ l.take p.length = p) ↔ ∃ t, l = p ++ t := by
  constructor
  · rintro ⟨-, h⟩
    refine ⟨l.drop p.length, ?_⟩
    calc l = l.take p.length ++ l.drop p.length := (List.take_append_drop _ _).symm
      _ = p ++ l.drop p.length := by rw [h]
  · rintro ⟨t, rfl⟩
    exact ⟨by rw [List.length_append]; omega, List.take_left _ _⟩

theorem strings.drop_eq_iff {α : Type} (l q : List α) :
    (l.length ≥ q.length ∧ l.drop (l.length - q.length) = q) ↔ ∃ t, l = t ++ q := by
  constructor
  · rintro ⟨-, h⟩
    refine ⟨l.take (l.length - q.length), ?_⟩
    calc l = l.take (l.length - q.length) ++ l.drop (l.length - q.length) :=
          (List.take_append_drop _ _).symm
      _ = l.take (l.length - q.length) ++ q := by rw [h]
  · rintro ⟨t, rfl⟩
    refine ⟨by rw [List.length_append]; omega, ?_⟩
    have : (t ++ q).length - q.length = t.length := by
      rw [List.length_append]; omega
    rw [this]
    exact List.drop_left _ _

theorem strings.mk_eq_iff (l : List Char) (a : String) : String.mk l = a ↔ l = a.data := by
  cases a
  exact ⟨fun h => congrArg String.data h, fun h => congrArg String.mk h⟩

theorem strings.exists_append_iff (s pre : String) :
    (∃ t : List Char, s.data = pre.data ++ t) ↔ ∃ t : String, s = pre ++ t := by
  constructor
  · rintro ⟨t, h⟩
    exact ⟨String.mk t, strings.eq_of_data_eq (by rw [String.data_append]; exact h)⟩
  · rintro ⟨t, rfl⟩
    exact ⟨t.data, String.data_append _ _⟩

theorem strings.exists_prepend_iff (s suf : String) :
    (∃ t : List Char, s.data = t ++ suf.data) ↔ ∃ t : String, s = t ++ suf := by
  constructor
  · rintro ⟨t, h⟩
    exact ⟨String.mk t, strings.eq_of_data_eq (by rw [String.data_append]; exact h)⟩
  · rintro ⟨t, rfl⟩
    exact ⟨t.data, String.data_append _ _⟩

/-- `HasPrefix s pre` holds exactly when `s` is `pre` followed by something. -/
theorem strings.HasPrefix_iff (s pre : String) :
    strings.HasPrefix s pre = true ↔ ∃ t : String, s = pre ++ t := by
  unfold strings.HasPrefix
  simp only [Bool.and_eq_true, decide_eq_true_eq, beq_iff_eq,
    strings.length_eq_data_length, strings.mk_eq_iff]
  rw [strings.take_eq_iff, strings.exists_append_iff]

/-- `HasSuffix s suf` holds exactly when `s` is something followed by `suf`. -/
theorem strings.HasSuffix_iff (s suf : String) :
    strings.HasSuffix s suf = true ↔ ∃ t : String, s = t ++ suf := by
  unfold strings.HasSuffix
  simp only [Bool.and_eq_true, decide_eq_true_eq, beq_iff_eq,
    strings.length_eq_data_length, strings.mk_eq_iff]
  rw [strings.drop_eq_iff, strings.exists_prepend_iff]

/-- When `pre` is a prefix of `s`, putting it back in front of
`TrimPrefix s pre` gives `s`. -/
theorem strings.append_TrimPrefix (s pre : String) (h : strings.HasPrefix s pre = true) :
    pre ++ strings.TrimPrefix s pre = s := by
  unfold strings.TrimPrefix
  rw [if_pos h]
  obtain ⟨t, rfl⟩ := (strings.HasPrefix_iff s pre).1 h
  apply strings.eq_of_data_eq
  simp only [String.data_append, strings.length_eq_data_length]
  rw [List.drop_left]

theorem strings.HasPrefix_empty (s : String) : strings.HasPrefix s "" = true :=
  (strings.HasPrefix_iff s "").2 ⟨s, by simp⟩

theorem strings.HasSuffix_empty (s : String) : strings.HasSuffix s "" = true :=
  (strings.HasSuffix_iff s "").2 ⟨s, by simp⟩

example : strings.HasPrefix "system:foo" "system:" = true := by decide
example : strings.HasSuffix "alice@example.com" "@example.com" = true := by decide
example : strings.TrimPrefix "oidc:alice" "oidc:" = "alice" := by decide

/-! ## Facts about the classifiers -/

/-- The match flag of `GetFederatedUser` is the conjunction of its five guards. -/
theorem subjectRecognizer.GetFederatedUser_snd (r : subjectRecognizer) (sub : Subject) :
    (r.GetFederatedUser sub).2 =
      (sub.APIGroup == "rbac.authorization.k8s.io" && sub.Kind == "User" &&
        !strings.HasPrefix sub.Name "system:" &&
        strings.HasPrefix sub.Name r.userIncludePrefix &&
        strings.HasSuffix sub.Name r.userIncludeSuffix) := by
  unfold subjectRecognizer.GetFederatedUser
  split_ifs <;> simp_all

/-- The match flag of `GetFederatedGroup` is the conjunction of its five guards. -/
theorem subjectRecognizer.GetFederatedGroup_snd (r : subjectRecognizer) (sub : Subject) :
    (r.GetFederatedGroup sub).2 =
      (sub.APIGroup == "rbac.authorization.k8s.io" && sub.Kind == "Group" &&
        !strings.HasPrefix sub.Name "system:" &&
        strings.HasPrefix sub.Name r.groupsIncludePrefix &&
        !strings.HasSuffix sub.Name r.groupsExcludeSuffix) := by
  unfold subjectRecognizer.GetFederatedGroup
  split_ifs <;> simp_all

/-- On a match, `GetFederatedUser` returns the name trimmed of the user prefix. -/
theorem subjectRecognizer.GetFederatedUser_fst (r : subjectRecognizer) (sub : Subject)
    (h : (r.GetFederatedUser sub).2 = true) :
    (r.GetFederatedUser sub).1 = strings.TrimPrefix sub.Name r.userIncludePrefix := by
  unfold subjectRecognizer.GetFederatedUser at h ⊢
  split_ifs at h ⊢
  simp_all

/-- On a match, `GetFederatedGroup` returns the name trimmed of the group prefix. -/
theorem subjectRecognizer.GetFederatedGroup_fst (r : subjectRecognizer) (sub : Subject)
    (h : (r.GetFederatedGroup sub).2 = true) :
    (r.GetFederatedGroup sub).1 = strings.TrimPrefix sub.Name r.groupsIncludePrefix := by
  unfold subjectRecognizer.GetFederatedGroup at h ⊢
  split_ifs at h ⊢
  simp_all

/-- A failed `GetFederatedUser` returns the empty local name. -/
theorem subjectRecognizer.GetFederatedUser_fst_of_not (r : subjectRecognizer) (sub : Subject)
    (h : (r.GetFederatedUser sub).2 = false) : (r.GetFederatedUser sub).1 = "" := by
  unfold subjectRecognizer.GetFederatedUser at h ⊢
  split_ifs at h ⊢ <;> simp_all

/-- `MigrateSubject` by cases on the two match flags. -/
theorem subjectRecognizer.MigrateSubject_user (r : subjectRecognizer) (sub : Subject)
    (h : (r.GetFederatedUser sub).2 = true) :
    r.MigrateSubject sub =
      { APIGroup := "rbac.authorization.k8s.io"
        Kind := "User"
        Name := "principal://iam.googleapis.com/locations/global/workforcePools/"
          ++ r.workforcePoolName ++ "/subject/" ++ (r.GetFederatedUser sub).1
        Namespace := "" } := by
  unfold subjectRecognizer.MigrateSubject
  rcases hu : r.GetFederatedUser sub with ⟨n, b⟩
  rw [hu] at h
  cases b <;> simp_all

theorem subjectRecognizer.MigrateSubject_group (r : subjectRecognizer) (sub : Subject)
    (hu : (r.GetFederatedUser sub).2 = false) (hg : (r.GetFederatedGroup sub).2 = true) :
    r.MigrateSubject sub =
      { APIGroup := "rbac.authorization.k8s.io"
        Kind := "Group"
        Name := "principalSet://iam.googleapis.com/locations/global/workforcePools/"
          ++ r.workforcePoolName ++ "/group/" ++ (r.GetFederatedGroup sub).1
        Namespace := "" } := by
  unfold subjectRecognizer.MigrateSubject
  rcases hu' : r.GetFederatedUser sub with ⟨n, b⟩
  rcases hg' : r.GetFederatedGroup sub with ⟨m, c⟩
  rw [hu'] at hu
  rw [hg'] at hg
  cases b
  all_goals cases c
  all_goals simp_all

theorem subjectRecognizer.MigrateSubject_neither (r : subjectRecognizer) (sub : Subject)
    (hu : (r.GetFederatedUser sub).2 = false) (hg : (r.GetFederatedGroup sub).2 = false) :
    r.MigrateSubject sub = sub := by
  unfold subjectRecognizer.MigrateSubject
  rcases hu' : r.GetFederatedUser sub with ⟨n, b⟩
  rcases hg' : r.GetFederatedGroup sub with ⟨m, c⟩
  rw [hu'] at hu
  rw [hg'] at hg
  cases b
  all_goals cases c
  all_goals simp_all

/-- The two classifiers ask for different kinds, so they never both match. -/
theorem subjectRecognizer.not_user_of_group (r : subjectRecognizer) (sub : Subject)
    (hg : (r.GetFederatedGroup sub).2 = true) : (r.GetFederatedUser sub).2 = false := by
  rw [subjectRecognizer.GetFederatedGroup_snd] at hg
  rw [subjectRecognizer.GetFederatedUser_snd]
  simp only [Bool.and_eq_true, beq_iff_eq] at hg
  have hk : sub.Kind = "Group" := hg.1.1.1.2
  have : (sub.Kind == "User") = false := by rw [hk]; decide
  simp [this]

/-! ## The subject classifier (claims C1, C2, C5, C6, C7) -/

/-- C1: `GetFederatedUser` reports a match exactly when the subject's API group
is `rbac.authorization.k8s.io`, its kind is `User`, its name does not start
with `system:`, starts with `userIncludePrefix` and ends with
`userIncludeSuffix`; an empty `userIncludePrefix` is a prefix of every name and
an empty `userIncludeSuffix` a suffix of every name, so an empty one drops out
of the conditions. -/
theorem GetFederatedUser_matched_iff (R : subjectRecognizer) (S : Subject) :
    ((R.GetFederatedUser S).2 = true ↔
      (S.APIGroup = "rbac.authorization.k8s.io" ∧ S.Kind = "User" ∧
        (¬ ∃ t : String, S.Name = "system:" ++ t) ∧
        (∃ t : String, S.Name = R.userIncludePrefix ++ t) ∧
        (∃ t : String, S.Name = t ++ R.userIncludeSuffix))) ∧
    (R.userIncludePrefix = "" →
      ((R.GetFederatedUser S).2 = true ↔
        (S.APIGroup = "rbac.authorization.k8s.io" ∧ S.Kind = "User" ∧
          (¬ ∃ t : String, S.Name = "system:" ++ t) ∧
          (∃ t : String, S.Name = t ++ R.userIncludeSuffix)))) ∧
    (R.userIncludeSuffix = "" →
      ((R.GetFederatedUser S).2 = true ↔
        (S.APIGroup = "rbac.authorization.k8s.io" ∧ S.Kind = "User" ∧
          (¬ ∃ t : String, S.Name = "system:" ++ t) ∧
          (∃ t : String, S.Name = R.userIncludePrefix ++ t)))) := by
  have key : (R.GetFederatedUser S).2 = true ↔
      (S.APIGroup = "rbac.authorization.k8s.io" ∧ S.Kind = "User" ∧
        (¬ ∃ t : String, S.Name = "system:" ++ t) ∧
        (∃ t : String, S.Name = R.userIncludePrefix ++ t) ∧
        (∃ t : String, S.Name = t ++ R.userIncludeSuffix)) := by
    rw [subjectRecognizer.GetFederatedUser_snd]
    simp only [Bool.and_eq_true, beq_iff_eq, Bool.not_eq_true', ← Bool.not_eq_true,
      strings.HasPrefix_iff, strings.HasSuffix_iff]
    tauto
  have h1 : ∃ t : String, S.Name = "" ++ t := (strings.HasPrefix_iff _ _).1
    (strings.HasPrefix_empty S.Name)
  have h2 : ∃ t : String, S.Name = t ++ "" := (strings.HasSuffix_iff _ _).1
    (strings.HasSuffix_empty S.Name)
  refine ⟨key, fun hp => ?_, fun hs => ?_⟩
  · rw [key, hp]
    tauto
  · rw [key, hs]
    tauto

/-- Scenario 1 of C1: under the suffix `@example.com` and the empty prefix the
user `alice@example.com` is matched. -/
theorem GetFederatedUser_matched_iff_witness :
    (Scenario.rules.GetFederatedUser Scenario.alice).2 = true :=
  (GetFederatedUser_matched_iff Scenario.rules Scenario.alice).1.2
    ⟨by decide, by decide,
      fun h => absurd ((strings.HasPrefix_iff _ _).2 h) (by decide),
      ⟨"alice@example.com", by decide⟩, ⟨"alice", by decide⟩⟩

/-- C2: `GetFederatedGroup` reports a match exactly when the subject's API
group is `rbac.authorization.k8s.io`, its kind is `Group`, its name does not
start with `system:`, starts with `groupsIncludePrefix` and does not end with
`groupsExcludeSuffix`; so a name that ends with the exclude suffix is never
matched. -/
theorem GetFederatedGroup_matched_iff (R : subjectRecognizer) (S : Subject) :
    ((R.GetFederatedGroup S).2 = true ↔
      (S.APIGroup = "rbac.authorization.k8s.io" ∧ S.Kind = "Group" ∧
        (¬ ∃ t : String, S.Name = "system:" ++ t) ∧
        (∃ t : String, S.Name = R.groupsIncludePrefix ++ t) ∧
        (¬ ∃ t : String, S.Name = t ++ R.groupsExcludeSuffix))) ∧
    ((∃ t : String, S.Name = t ++ R.groupsExcludeSuffix) →
      (R.GetFederatedGroup S).2 = false) := by
  have key : (R.GetFederatedGroup S).2 = true ↔
      (S.APIGroup = "rbac.authorization.k8s.io" ∧ S.Kind = "Group" ∧
        (¬ ∃ t : String, S.Name = "system:" ++ t) ∧
        (∃ t : String, S.Name = R.groupsIncludePrefix ++ t) ∧
        (¬ ∃ t : String, S.Name = t ++ R.groupsExcludeSuffix)) := by
    rw [subjectRecognizer.GetFederatedGroup_snd]
    simp only [Bool.and_eq_true, beq_iff_eq, Bool.not_eq_true', ← Bool.not_eq_true,
      strings.HasPrefix_iff, strings.HasSuffix_iff]
    tauto
  refine ⟨key, fun h => ?_⟩
  rw [← Bool.not_eq_true, key]
  tauto

/-- Scenario 2 of C2: with exclude suffix `@groups.example.com` the group
`admins@groups.example.com` is not matched. -/
theorem GetFederatedGroup_matched_iff_witness :
    (subjectRecognizer.GetFederatedGroup
      { userIncludePrefix := "", userIncludeSuffix := "@example.com",
        groupsIncludePrefix := "", groupsExcludeSuffix := "@groups.example.com",
        workforcePoolName := "my-pool" }
      { Kind := "Group", APIGroup := "rbac.authorization.k8s.io",
        Name := "admins@groups.example.com", Namespace := "" }).2 = false :=
  (GetFederatedGroup_matched_iff _ _).2 ⟨"admins", by decide⟩

/-- C5: a subject whose name starts with `system:` is matched by neither
classifier, whatever the rules, its kind and its API group, and
`MigrateSubject` returns it unchanged. -/
theorem system_subject_untouched (R : subjectRecognizer) (S : Subject)
    (h : ∃ t : String, S.Name = "system:" ++ t) :
    (R.GetFederatedUser S).2 = false ∧ (R.GetFederatedGroup S).2 = false ∧
      R.MigrateSubject S = S := by
  have hs : strings.HasPrefix S.Name "system:" = true := (strings.HasPrefix_iff _ _).2 h
  have hu : (R.GetFederatedUser S).2 = false := by
    rw [subjectRecognizer.GetFederatedUser_snd, hs]; simp
  have hg : (R.GetFederatedGroup S).2 = false := by
    rw [subjectRecognizer.GetFederatedGroup_snd, hs]; simp
  exact ⟨hu, hg, subjectRecognizer.MigrateSubject_neither R S hu hg⟩

/-- Scenario 3 of C5: the user `system:serviceaccount:default:x`. -/
theorem system_subject_untouched_witness :
    (∃ t : String, "system:serviceaccount:default:x" = "system:" ++ t) ∧
    (subjectRecognizer.GetFederatedUser
      { userIncludePrefix := "", userIncludeSuffix := "x",
        groupsIncludePrefix := "", groupsExcludeSuffix := "@groups.example.com",
        workforcePoolName := "my-pool" }
      { Kind := "User", APIGroup := "rbac.authorization.k8s.io",
        Name := "system:serviceaccount:default:x", Namespace := "" }).2 = false :=
  ⟨⟨"serviceaccount:default:x", by decide⟩,
    (system_subject_untouched _
      { Kind := "User", APIGroup := "rbac.authorization.k8s.io",
        Name := "system:serviceaccount:default:x", Namespace := "" }
      ⟨"serviceaccount:default:x", by decide⟩).1⟩

/-- C6: `GetFederatedUser` and `GetFederatedGroup` never both report a match
for the same subject under the same rules. -/
theorem not_both_matched (R : subjectRecognizer) (S : Subject) :
    ¬ ((R.GetFederatedUser S).2 = true ∧ (R.GetFederatedGroup S).2 = true) := by
  rintro ⟨hu, hg⟩
  rw [subjectRecognizer.not_user_of_group R S hg] at hu
  exact Bool.false_ne_true hu

/-- C7: when `GetFederatedUser` matches with local name `L`, the user include
prefix followed by `L` is the subject's name, and likewise for
`GetFederatedGroup` with the group include prefix. -/
theorem localName_roundtrip (R : subjectRecognizer) (S : Subject) (L : String) :
    (R.GetFederatedUser S = (L, true) → R.userIncludePrefix ++ L = S.Name) ∧
    (R.GetFederatedGroup S = (L, true) → R.groupsIncludePrefix ++ L = S.Name) := by
  constructor
  · intro h
    have h2 : (R.GetFederatedUser S).2 = true := by rw [h]
    have h1 : (R.GetFederatedUser S).1 = L := by rw [h]
    rw [subjectRecognizer.GetFederatedUser_fst R S h2] at h1
    rw [subjectRecognizer.GetFederatedUser_snd] at h2
    simp only [Bool.and_eq_true] at h2
    rw [← h1]
    exact strings.append_TrimPrefix _ _ h2.1.2
  · intro h
    have h2 : (R.GetFederatedGroup S).2 = true := by rw [h]
    have h1 : (R.GetFederatedGroup S).1 = L := by rw [h]
    rw [subjectRecognizer.GetFederatedGroup_fst R S h2] at h1
    rw [subjectRecognizer.GetFederatedGroup_snd] at h2
    simp only [Bool.and_eq_true] at h2
    rw [← h1]
    exact strings.append_TrimPrefix _ _ h2.1.2

/-- An instance of C7: the user `oidc:alice@example.com` under the include
prefix `oidc:` has local name `alice@example.com`. -/
theorem localName_roundtrip_witness :
    subjectRecognizer.GetFederatedUser
      { userIncludePrefix := "oidc:", userIncludeSuffix := "@example.com",
        groupsIncludePrefix := "", groupsExcludeSuffix := "@groups.example.com",
        workforcePoolName := "my-pool" }
      { Kind := "User", APIGroup := "rbac.authorization.k8s.io",
        Name := "oidc:alice@example.com", Namespace := "" } = ("alice@example.com", true) ∧
    "oidc:" ++ "alice@example.com" = "oidc:alice@example.com" :=
  ⟨by decide,
    (localName_roundtrip
      { userIncludePrefix := "oidc:", userIncludeSuffix := "@example.com",
        groupsIncludePrefix := "", groupsExcludeSuffix := "@groups.example.com",
        workforcePoolName := "my-pool" }
      { Kind := "User", APIGroup := "rbac.authorization.k8s.io",
        Name := "oidc:alice@example.com", Namespace := "" } "alice@example.com").1
      (by decide)⟩

/-! ## The subject transformer (claims C3, C4, C10) -/

/-- C3: when `GetFederatedUser` matches with local name `L`, `MigrateSubject`
returns API group `rbac.authorization.k8s.io`, kind `User` and the name
`principal://iam.googleapis.com/locations/global/workforcePools/W/subject/L`;
when `GetFederatedGroup` matches with local name `L`, it returns the same API
group, kind `Group` and the name
`principalSet://iam.googleapis.com/locations/global/workforcePools/W/group/L`.
`W` is the workforce pool name and `L` is appended as it is. -/
theorem MigrateSubject_federated (R : subjectRecognizer) (S : Subject) (L : String) :
    (R.GetFederatedUser S = (L, true) →
      (R.MigrateSubject S).APIGroup = "rbac.authorization.k8s.io" ∧
      (R.MigrateSubject S).Kind = "User" ∧
      (R.MigrateSubject S).Name =
        "principal://iam.googleapis.com/locations/global/workforcePools/"
          ++ R.workforcePoolName ++ "/subject/" ++ L) ∧
    (R.GetFederatedGroup S = (L, true) →
      (R.MigrateSubject S).APIGroup = "rbac.authorization.k8s.io" ∧
      (R.MigrateSubject S).Kind = "Group" ∧
      (R.MigrateSubject S).Name =
        "principalSet://iam.googleapis.com/locations/global/workforcePools/"
          ++ R.workforcePoolName ++ "/group/" ++ L) := by
  constructor
  · intro h
    have h2 : (R.GetFederatedUser S).2 = true := by rw [h]
    rw [subjectRecognizer.MigrateSubject_user R S h2, h]
    exact ⟨rfl, rfl, rfl⟩
  · intro h
    have h2 : (R.GetFederatedGroup S).2 = true := by rw [h]
    rw [subjectRecognizer.MigrateSubject_group R S
      (subjectRecognizer.not_user_of_group R S h2) h2, h]
    exact ⟨rfl, rfl, rfl⟩

/-- Scenario 1 of C3: `alice@example.com` under the suffix `@example.com` and
the pool `my-pool`. -/
theorem MigrateSubject_federated_witness :
    (subjectRecognizer.MigrateSubject
      { userIncludePrefix := "", userIncludeSuffix := "@example.com",
        groupsIncludePrefix := "", groupsExcludeSuffix := "@groups.example.com",
        workforcePoolName := "my-pool" }
      { Kind := "User", APIGroup := "rbac.authorization.k8s.io",
        Name := "alice@example.com", Namespace := "" }).Name =
      "principal://iam.googleapis.com/locations/global/workforcePools/"
        ++ "my-pool" ++ "/subject/" ++ "alice@example.com" :=
  ((MigrateSubject_federated
      { userIncludePrefix := "", userIncludeSuffix := "@example.com",
        groupsIncludePrefix := "", groupsExcludeSuffix := "@groups.example.com",
        workforcePoolName := "my-pool" }
      { Kind := "User", APIGroup := "rbac.authorization.k8s.io",
        Name := "alice@example.com", Namespace := "" } "alice@example.com").1
      (by decide)).2.2

/-- C4: a subject matched by neither classifier is returned by
`MigrateSubject` as it is, equal in every field. -/
theorem MigrateSubject_passthrough (R : subjectRecognizer) (S : Subject)
    (hu : (R.GetFederatedUser S).2 = false) (hg : (R.GetFederatedGroup S).2 = false) :
    R.MigrateSubject S = S :=
  subjectRecognizer.MigrateSubject_neither R S hu hg

/-- An instance of C4: a service account subject. -/
theorem MigrateSubject_passthrough_witness :
    subjectRecognizer.MigrateSubject
      { userIncludePrefix := "", userIncludeSuffix := "@example.com",
        groupsIncludePrefix := "", groupsExcludeSuffix := "@groups.example.com",
        workforcePoolName := "my-pool" }
      { Kind := "ServiceAccount", APIGroup := "", Name := "builder", Namespace := "default" } =
      { Kind := "ServiceAccount", APIGroup := "", Name := "builder", Namespace := "default" } :=
  MigrateSubject_passthrough _ _ (by decide) (by decide)

/-- C10, as stated, fails: with the user suffix `@example.com` and the empty
user prefix, the migrated form of `alice@example.com` still ends with the
suffix and is rewritten a second time. -/
theorem MigrateSubject_not_idempotent :
    subjectRecognizer.MigrateSubject
      { userIncludePrefix := "", userIncludeSuffix := "@example.com",
        groupsIncludePrefix := "", groupsExcludeSuffix := "@groups.example.com",
        workforcePoolName := "my-pool" }
      (subjectRecognizer.MigrateSubject
        { userIncludePrefix := "", userIncludeSuffix := "@example.com",
          groupsIncludePrefix := "", groupsExcludeSuffix := "@groups.example.com",
          workforcePoolName := "my-pool" }
        { Kind := "User", APIGroup := "rbac.authorization.k8s.io",
          Name := "alice@example.com", Namespace := "" }) ≠
    subjectRecognizer.MigrateSubject
      { userIncludePrefix := "", userIncludeSuffix := "@example.com",
        groupsIncludePrefix := "", groupsExcludeSuffix := "@groups.example.com",
        workforcePoolName := "my-pool" }
      { Kind := "User", APIGroup := "rbac.authorization.k8s.io",
        Name := "alice@example.com", Namespace := "" } := by
  decide

/-- C10, amended: when the subject produced by `MigrateSubject` is itself
matched by neither classifier under the same rules, a second `MigrateSubject`
returns it unchanged. -/
theorem MigrateSubject_idempotent_of_unmatched (R : subjectRecognizer) (S : Subject)
    (hu : (R.GetFederatedUser (R.MigrateSubject S)).2 = false)
    (hg : (R.GetFederatedGroup (R.MigrateSubject S)).2 = false) :
    R.MigrateSubject (R.MigrateSubject S) = R.MigrateSubject S :=
  subjectRecognizer.MigrateSubject_neither R (R.MigrateSubject S) hu hg

/-- An instance of the amended C10: under the user prefix `oidc:` the migrated
form of `oidc:alice@example.com` no longer starts with the prefix and is left
alone. -/
theorem MigrateSubject_idempotent_of_unmatched_witness :
    subjectRecognizer.MigrateSubject
      { userIncludePrefix := "oidc:", userIncludeSuffix := "@example.com",
        groupsIncludePrefix := "oidc:", groupsExcludeSuffix := "@groups.example.com",
        workforcePoolName := "my-pool" }
      (subjectRecognizer.MigrateSubject
        { userIncludePrefix := "oidc:", userIncludeSuffix := "@example.com",
          groupsIncludePrefix := "oidc:", groupsExcludeSuffix := "@groups.example.com",
          workforcePoolName := "my-pool" }
        { Kind := "User", APIGroup := "rbac.authorization.k8s.io",
          Name := "oidc:alice@example.com", Namespace := "" }) =
    subjectRecognizer.MigrateSubject
      { userIncludePrefix := "oidc:", userIncludeSuffix := "@example.com",
        groupsIncludePrefix := "oidc:", groupsExcludeSuffix := "@groups.example.com",
        workforcePoolName := "my-pool" }
      { Kind := "User", APIGroup := "rbac.authorization.k8s.io",
        Name := "oidc:alice@example.com", Namespace := "" } :=
  MigrateSubject_idempotent_of_unmatched _ _ (by decide) (by decide)

/-! ## The find filter (claim C8) -/

/-- The inner loop of the find commands, from any starting value of
`federated`. -/
theorem federatedSubjects_foldl (rec : subjectRecognizer) (subjects : List Subject)
    (b : Bool) :
    subjects.foldl
        (fun federated sub =>
          if (rec.GetFederatedUser sub).2 then true
          else if (rec.GetFederatedGroup sub).2 then true
          else federated)
        b =
      (b || subjects.any
        (fun s => (rec.GetFederatedUser s).2 || (rec.GetFederatedGroup s).2)) := by
  induction subjects generalizing b with
  | nil => simp
  | cons s rest ih =>
    rw [List.foldl_cons, ih, List.any_cons]
    cases hu : (rec.GetFederatedUser s).2 <;> cases hg : (rec.GetFederatedGroup s).2 <;>
      cases b <;> simp

/-- The inner loop computes "some subject is matched by one of the classifiers". -/
theorem federatedSubjects_eq_any (rec : subjectRecognizer) (subjects : List Subject) :
    federatedSubjects rec subjects =
      subjects.any (fun s => (rec.GetFederatedUser s).2 || (rec.GetFederatedGroup s).2) := by
  unfold federatedSubjects
  rw [federatedSubjects_foldl]
  simp

/-- The loop over one page appends the page's federated bindings, in order. -/
theorem appendFederated_eq_filter (rec : subjectRecognizer) (items acc : List Binding) :
    appendFederated rec items acc =
      acc ++ items.filter (fun b => b.Subjects.any
        (fun s => (rec.GetFederatedUser s).2 || (rec.GetFederatedGroup s).2)) := by
  unfold appendFederated
  induction items generalizing acc with
  | nil => simp
  | cons b rest ih =>
    rw [List.foldl_cons, ih, List.filter_cons, federatedSubjects_eq_any]
    split_ifs <;> simp

/-- The paging loop of `find-clusterrolebindings` from any token and collected
list: the collected list followed by the filtered enumeration. -/
theorem FindCRBCommand_listFederated_eq (rec : subjectRecognizer) (kc : Lister) (fuel : Nat)
    (continueToken : String) (acc : List Binding) :
    FindCRBCommand.listFederated rec kc fuel continueToken acc =
      (enumerated kc fuel continueToken).map (fun r =>
        match r with
        | .ok items => .ok (acc ++ items.filter (fun b => b.Subjects.any
            (fun s => (rec.GetFederatedUser s).2 || (rec.GetFederatedGroup s).2)))
        | .error err => .error ("Error while listing ClusterRoleBindings: " ++ err)) := by
  induction fuel generalizing continueToken acc with
  | zero => rfl
  | succ n ih =>
    unfold FindCRBCommand.listFederated enumerated
    cases hk : kc continueToken with
    | error err => rfl
    | ok page =>
      simp only []
      by_cases hc : (page.Continue == "") = true
      · rw [if_pos hc, if_pos hc, appendFederated_eq_filter]
        rfl
      · rw [if_neg hc, if_neg hc, ih, appendFederated_eq_filter]
        cases he : enumerated kc n page.Continue with
        | none => rfl
        | some r =>
          cases r with
          | error err => rfl
          | ok rest => simp [List.filter_append, List.append_assoc]

/-- The paging loop of `find-rolebindings`, likewise. -/
theorem FindRBCommand_listFederated_eq (rec : subjectRecognizer) (kc : Lister) (fuel : Nat)
    (continueToken : String) (acc : List Binding) :
    FindRBCommand.listFederated rec kc fuel continueToken acc =
      (enumerated kc fuel continueToken).map (fun r =>
        match r with
        | .ok items => .ok (acc ++ items.filter (fun b => b.Subjects.any
            (fun s => (rec.GetFederatedUser s).2 || (rec.GetFederatedGroup s).2)))
        | .error err => .error ("Error while listing RoleBindings: " ++ err)) := by
  induction fuel generalizing continueToken acc with
  | zero => rfl
  | succ n ih =>
    unfold FindRBCommand.listFederated enumerated
    cases hk : kc continueToken with
    | error err => rfl
    | ok page =>
      simp only []
      by_cases hc : (page.Continue == "") = true
      · rw [if_pos hc, if_pos hc, appendFederated_eq_filter]
        rfl
      · rw [if_neg hc, if_neg hc, ih, appendFederated_eq_filter]
        cases he : enumerated kc n page.Continue with
        | none => rfl
        | some r =>
          cases r with
          | error err => rfl
          | ok rest => simp [List.filter_append, List.append_assoc]

/-- A binding kept by the filter has a subject. -/
theorem subjects_ne_nil_of_mem_filter (rec : subjectRecognizer) (items : List Binding)
    (b : Binding)
    (h : b ∈ items.filter (fun b => b.Subjects.any
      (fun s => (rec.GetFederatedUser s).2 || (rec.GetFederatedGroup s).2))) :
    b.Subjects ≠ [] := by
  intro hnil
  have := (List.mem_filter.1 h).2
  rw [hnil] at this
  simp at this

/-- C8: the list retained by each find command is the enumerated sequence of
bindings filtered, in input order, to those with at least one subject matched
by `GetFederatedUser` or `GetFederatedGroup` (a failed listing is reported with
the command's message, and the loop ends with the enumeration); a binding with
no subjects is never retained. -/
theorem find_retains_federated (R : subjectRecognizer) (kc : Lister) (fuel : Nat) :
    (FindCRBCommand.listFederated R kc fuel "" [] =
      (enumerated kc fuel "").map (fun r =>
        match r with
        | .ok items => .ok (items.filter (fun b => b.Subjects.any
            (fun s => (R.GetFederatedUser s).2 || (R.GetFederatedGroup s).2)))
        | .error err => .error ("Error while listing ClusterRoleBindings: " ++ err))) ∧
    (FindRBCommand.listFederated R kc fuel "" [] =
      (enumerated kc fuel "").map (fun r =>
        match r with
        | .ok items => .ok (items.filter (fun b => b.Subjects.any
            (fun s => (R.GetFederatedUser s).2 || (R.GetFederatedGroup s).2)))
        | .error err => .error ("Error while listing RoleBindings: " ++ err))) ∧
    (∀ out, FindCRBCommand.listFederated R kc fuel "" [] = some (.ok out) →
      ∀ b ∈ out, b.Subjects ≠ []) ∧
    (∀ out, FindRBCommand.listFederated R kc fuel "" [] = some (.ok out) →
      ∀ b ∈ out, b.Subjects ≠ []) := by
  have h1 := FindCRBCommand_listFederated_eq R kc fuel "" []
  have h2 := FindRBCommand_listFederated_eq R kc fuel "" []
  simp only [List.nil_append] at h1 h2
  refine ⟨h1, h2, ?_, ?_⟩
  · intro out ho b hb
    rw [h1] at ho
    cases he : enumerated kc fuel "" with
    | none => rw [he] at ho; simp at ho
    | some r =>
      rw [he] at ho
      cases r with
      | error err => simp at ho
      | ok items =>
        simp only [Option.map_some', Option.some.injEq, Except.ok.injEq] at ho
        rw [← ho] at hb
        exact subjects_ne_nil_of_mem_filter R items b hb
  · intro out ho b hb
    rw [h2] at ho
    cases he : enumerated kc fuel "" with
    | none => rw [he] at ho; simp at ho
    | some r =>
      rw [he] at ho
      cases r with
      | error err => simp at ho
      | ok items =>
        simp only [Option.map_some', Option.some.injEq, Except.ok.injEq] at ho
        rw [← ho] at hb
        exact subjects_ne_nil_of_mem_filter R items b hb

/-- With the required flag set and a cluster connection that can be set up,
`find-clusterrolebindings` runs the paging loop from the empty token under the
rules given by its flags. -/
theorem FindCRBCommand_Execute_eq {Config : Type} (c : FindCRBCommand) (k : Kube Config)
    (fuel : Nat) (config : Config) (kc : Lister)
    (hs : c.userIncludeSuffix ≠ "")
    (h1 : k.BuildConfigFromFlags "" c.kubeConfig = .ok config)
    (h2 : k.NewForConfig config = .ok kc) :
    FindCRBCommand.Execute c k fuel =
      FindCRBCommand.listFederated
        { userIncludePrefix := c.userIncludePrefix
          userIncludeSuffix := c.userIncludeSuffix
          groupsIncludePrefix := c.groupsIncludePrefix
          groupsExcludeSuffix := c.groupsExcludeSuffix
          workforcePoolName := "" } kc fuel "" [] := by
  unfold FindCRBCommand.Execute
  have : (c.userIncludeSuffix == "") = false := by simpa using hs
  simp [this, h1, h2]

/-- The same for `find-rolebindings`. -/
theorem FindRBCommand_Execute_eq {Config : Type} (c : FindRBCommand) (k : Kube Config)
    (fuel : Nat) (config : Config) (kc : Lister)
    (hs : c.userIncludeSuffix ≠ "")
    (h1 : k.BuildConfigFromFlags "" c.kubeConfig = .ok config)
    (h2 : k.NewForConfig config = .ok kc) :
    FindRBCommand.Execute c k fuel =
      FindRBCommand.listFederated
        { userIncludePrefix := c.userIncludePrefix
          userIncludeSuffix := c.userIncludeSuffix
          groupsIncludePrefix := c.groupsIncludePrefix
          groupsExcludeSuffix := c.groupsExcludeSuffix
          workforcePoolName := "" } kc fuel "" [] := by
  unfold FindRBCommand.Execute
  have : (c.userIncludeSuffix == "") = false := by simpa using hs
  simp [this, h1, h2]

/-! ## The rewriter (claim C9) -/

/-- Appending one migrated subject per input subject is mapping
`MigrateSubject` over the input. -/
theorem migrateSubjects_foldl (rec : subjectRecognizer) (subjects acc : List Subject) :
    subjects.foldl (fun out sub => out ++ [rec.MigrateSubject sub]) acc =
      acc ++ subjects.map rec.MigrateSubject := by
  induction subjects generalizing acc with
  | nil => simp
  | cons s rest ih => rw [List.foldl_cons, ih]; simp

theorem migrateSubjects_eq_map (rec : subjectRecognizer) (subjects : List Subject) :
    migrateSubjects rec subjects = subjects.map rec.MigrateSubject := by
  unfold migrateSubjects
  rw [migrateSubjects_foldl]
  rfl

/-- The rewritten binding carries the migrated subjects. -/
theorem rewriteBinding_Subjects (rec : subjectRecognizer) (b : Binding) :
    (rewriteBinding rec b).Subjects = b.Subjects.map rec.MigrateSubject := by
  unfold rewriteBinding
  exact migrateSubjects_eq_map rec b.Subjects

theorem rewriteItems_foldl (rec : subjectRecognizer) (items acc : List Binding) :
    items.foldl (fun out b => out ++ [rewriteBinding rec b]) acc =
      acc ++ items.map (rewriteBinding rec) := by
  induction items generalizing acc with
  | nil => simp
  | cons b rest ih => rw [List.foldl_cons, ih]; simp

theorem RewriteCRBCommand_rewriteItems_eq_map (rec : subjectRecognizer)
    (items : List Binding) :
    RewriteCRBCommand.rewriteItems rec items = items.map (rewriteBinding rec) := by
  unfold RewriteCRBCommand.rewriteItems
  rw [rewriteItems_foldl]
  rfl

theorem RewriteRBCommand_rewriteItems_eq_map (rec : subjectRecognizer)
    (items : List Binding) :
    RewriteRBCommand.rewriteItems rec items = items.map (rewriteBinding rec) := by
  unfold RewriteRBCommand.rewriteItems
  rw [rewriteItems_foldl]
  rfl

/-- Index-wise reading of a list of rewritten bindings. -/
theorem map_rewriteBinding_spec (rec : subjectRecognizer) (items : List Binding) :
    (items.map (rewriteBinding rec)).length = items.length ∧
    ∀ (i : Nat) (b : Binding), items[i]? = some b →
      ∃ b', (items.map (rewriteBinding rec))[i]? = some b' ∧
        b'.Subjects.length = b.Subjects.length ∧
        ∀ j : Nat, b'.Subjects[j]? = (b.Subjects[j]?).map rec.MigrateSubject := by
  refine ⟨List.length_map _ _, fun i b hb => ⟨rewriteBinding rec b, ?_, ?_, ?_⟩⟩
  · rw [List.getElem?_map, hb]; rfl
  · rw [rewriteBinding_Subjects, List.length_map]
  · intro j
    rw [rewriteBinding_Subjects, List.getElem?_map]

/-- C9: each rewrite command produces one output binding per input binding,
in input order; the output binding at position `i` has as many subjects as the
input binding at position `i`, and its subject at position `j` is
`MigrateSubject` of the input's subject at position `j`. -/
theorem rewrite_migrates_each_subject (R : subjectRecognizer) (items : List Binding) :
    ((RewriteCRBCommand.rewriteItems R items).length = items.length ∧
      ∀ (i : Nat) (b : Binding), items[i]? = some b →
        ∃ b', (RewriteCRBCommand.rewriteItems R items)[i]? = some b' ∧
          b'.Subjects.length = b.Subjects.length ∧
          ∀ j : Nat, b'.Subjects[j]? = (b.Subjects[j]?).map R.MigrateSubject) ∧
    ((RewriteRBCommand.rewriteItems R items).length = items.length ∧
      ∀ (i : Nat) (b : Binding), items[i]? = some b →
        ∃ b', (RewriteRBCommand.rewriteItems R items)[i]? = some b' ∧
          b'.Subjects.length = b.Subjects.length ∧
          ∀ j : Nat, b'.Subjects[j]? = (b.Subjects[j]?).map R.MigrateSubject) := by
  rw [RewriteCRBCommand_rewriteItems_eq_map, RewriteRBCommand_rewriteItems_eq_map]
  exact ⟨map_rewriteBinding_spec R items, map_rewriteBinding_spec R items⟩

/-- With both required flags set, `rewrite-clusterrolebindings` prints the
rewritten items under the rules given by its flags. -/
theorem RewriteCRBCommand_Execute_eq (c : RewriteCRBCommand) (inputCRBs : BindingList)
    (hs : c.userIncludeSuffix ≠ "") (hw : c.workforcePoolName ≠ "") :
    RewriteCRBCommand.Execute c inputCRBs =
      .ok (RewriteCRBCommand.rewriteItems
        { userIncludePrefix := c.userIncludePrefix
          userIncludeSuffix := c.userIncludeSuffix
          groupsIncludePrefix := c.groupsIncludePrefix
          groupsExcludeSuffix := c.groupsExcludeSuffix
          workforcePoolName := c.workforcePoolName } inputCRBs.Items) := by
  unfold RewriteCRBCommand.Execute
  have h1 : (c.userIncludeSuffix == "") = false := by simpa using hs
  have h2 : (c.workforcePoolName == "") = false := by simpa using hw
  simp [h1, h2]

/-- The same for `rewrite-rolebindings`. -/
theorem RewriteRBCommand_Execute_eq (c : RewriteRBCommand) (inputRBs : BindingList)
    (hs : c.userIncludeSuffix ≠ "") (hw : c.workforcePoolName ≠ "") :
    RewriteRBCommand.Execute c inputRBs =
      .ok (RewriteRBCommand.rewriteItems
        { userIncludePrefix := c.userIncludePrefix
          userIncludeSuffix := c.userIncludeSuffix
          groupsIncludePrefix := c.groupsIncludePrefix
          groupsExcludeSuffix := c.groupsExcludeSuffix
          workforcePoolName := c.workforcePoolName } inputRBs.Items) := by
  unfold RewriteRBCommand.Execute
  have h1 : (c.userIncludeSuffix == "") = false := by simpa using hs
  have h2 : (c.workforcePoolName == "") = false := by simpa using hw
  simp [h1, h2]

/-! ## The scenarios, evaluated -/

/-- Scenario 4 for C8: over the two pages only the binding with the federated
user is retained. -/
theorem Scenario.find_retains_adminBinding :
    FindCRBCommand.listFederated Scenario.rules Scenario.twoPages 2 "" [] =
      some (.ok [Scenario.adminBinding]) ∧
    FindRBCommand.listFederated Scenario.rules Scenario.twoPages 2 "" [] =
      some (.ok [Scenario.adminBinding]) ∧
    enumerated Scenario.twoPages 2 "" =
      some (.ok [Scenario.emptyBinding, Scenario.builderBinding, Scenario.adminBinding]) :=
  ⟨(find_retains_federated Scenario.rules Scenario.twoPages 2).1.trans rfl,
    (find_retains_federated Scenario.rules Scenario.twoPages 2).2.1.trans rfl,
    rfl⟩

/-- Scenario 4 for C9: one binding comes out, with two subjects, the first
migrated and the second unchanged. -/
theorem Scenario.rewrite_adminBinding :
    (RewriteCRBCommand.rewriteItems Scenario.rules [Scenario.adminBinding]).length = 1 ∧
    (RewriteCRBCommand.rewriteItems Scenario.rules [Scenario.adminBinding]).map
        (fun b => b.Subjects) =
      [[{ Kind := "User", APIGroup := "rbac.authorization.k8s.io",
          Name := "principal://iam.googleapis.com/locations/global/workforcePools/my-pool/subject/alice@example.com",
          Namespace := "" },
        Scenario.builder]] :=
  ⟨(rewrite_migrates_each_subject Scenario.rules [Scenario.adminBinding]).1.1, by decide⟩

/-- Scenario 5: the rewritten `admin-binding` is named `admin-binding-wfidf`
and has its cluster-managed metadata cleared. -/
theorem Scenario.rewrite_adminBinding_ObjectMeta :
    (rewriteBinding Scenario.rules Scenario.adminBinding).ObjectMeta =
      { Name := "admin-binding-wfidf", Namespace := "", Labels := [], Annotations := [],
        CreationTimestamp := none, ManagedFields := [], ResourceVersion := "", UID := "" } := by
  decide

/-- Scenario 1: the classifier on `alice@example.com`. -/
theorem Scenario.alice_is_federated_user :
    Scenario.rules.GetFederatedUser Scenario.alice = ("alice@example.com", true) ∧
    (Scenario.rules.GetFederatedGroup Scenario.alice).2 = false := by
  decide

/-- A rule-level reading of the amended C10: when no migrated user name starts
with the user include prefix and no migrated group name starts with the group
include prefix, `MigrateSubject` applied twice is `MigrateSubject` applied
once, for every subject. -/
theorem MigrateSubject_idempotent_of_foreign_prefixes (R : subjectRecognizer)
    (hU : ∀ t : String, strings.HasPrefix
      ("principal://iam.googleapis.com/locations/global/workforcePools/"
        ++ R.workforcePoolName ++ "/subject/" ++ t) R.userIncludePrefix = false)
    (hG : ∀ t : String, strings.HasPrefix
      ("principalSet://iam.googleapis.com/locations/global/workforcePools/"
        ++ R.workforcePoolName ++ "/group/" ++ t) R.groupsIncludePrefix = false)
    (S : Subject) :
    R.MigrateSubject (R.MigrateSubject S) = R.MigrateSubject S := by
  cases hu : (R.GetFederatedUser S).2 with
  | true =>
    rw [subjectRecognizer.MigrateSubject_user R S hu]
    apply subjectRecognizer.MigrateSubject_neither
    · rw [subjectRecognizer.GetFederatedUser_snd]
      simp [hU]
    · rw [subjectRecognizer.GetFederatedGroup_snd]
      have : (("User" : String) == "Group") = false := by decide
      simp [this]
  | false =>
    cases hg : (R.GetFederatedGroup S).2 with
    | true =>
      rw [subjectRecognizer.MigrateSubject_group R S hu hg]
      apply subjectRecognizer.MigrateSubject_neither
      · rw [subjectRecognizer.GetFederatedUser_snd]
        have : (("Group" : String) == "User") = false := by decide
        simp [this]
      · rw [subjectRecognizer.GetFederatedGroup_snd]
        simp [hG]
    | false =>
      rw [subjectRecognizer.MigrateSubject_neither R S hu hg]
      exact subjectRecognizer.MigrateSubject_neither R S hu hg

/-- A name that starts with `p` does not start with `oidc:`. -/
theorem strings.not_HasPrefix_oidc (a : String) :
    strings.HasPrefix ("p" ++ a) "oidc:" = false := by
  rw [← Bool.not_eq_true, strings.HasPrefix_iff]
  rintro ⟨u, hu⟩
  have := congrArg String.data hu
  rw [String.data_append, String.data_append] at this
  have h0 := congrArg List.head? this
  have e1 : ("p".data ++ a.data).head? = some 'p' := rfl
  have e2 : ("oidc:".data ++ u.data).head? = some 'o' := rfl
  rw [e1, e2] at h0
  exact absurd h0 (by decide)

/-- The hypotheses of the rule-level reading hold for the include prefix
`oidc:`, so under such rules every subject is migrated at most once. -/
theorem MigrateSubject_idempotent_oidc (S : Subject) :
    subjectRecognizer.MigrateSubject
      { userIncludePrefix := "oidc:", userIncludeSuffix := "@example.com",
        groupsIncludePrefix := "oidc:", groupsExcludeSuffix := "@groups.example.com",
        workforcePoolName := "my-pool" }
      (subjectRecognizer.MigrateSubject
        { userIncludePrefix := "oidc:", userIncludeSuffix := "@example.com",
          groupsIncludePrefix := "oidc:", groupsExcludeSuffix := "@groups.example.com",
          workforcePoolName := "my-pool" } S) =
    subjectRecognizer.MigrateSubject
      { userIncludePrefix := "oidc:", userIncludeSuffix := "@example.com",
        groupsIncludePrefix := "oidc:", groupsExcludeSuffix := "@groups.example.com",
        workforcePoolName := "my-pool" } S := by
  apply MigrateSubject_idempotent_of_foreign_prefixes
  · intro t
    have := strings.not_HasPrefix_oidc
      ("rincipal://iam.googleapis.com/locations/global/workforcePools/"
        ++ "my-pool" ++ "/subject/" ++ t)
    rw [← this]
    congr 1
  · intro t
    have := strings.not_HasPrefix_oidc
      ("rincipalSet://iam.googleapis.com/locations/global/workforcePools/"
        ++ "my-pool" ++ "/group/" ++ t)
    rw [← this]
    congr 1

/-! ## Groups under the default group flags (claim C11) -/

/-- With an empty `groupsExcludeSuffix` the exclusion test `HasSuffix(name, "")`
succeeds for every name, so `GetFederatedGroup` matches no subject. -/
theorem subjectRecognizer.GetFederatedGroup_of_empty_exclude (r : subjectRecognizer)
    (sub : Subject) (h : r.groupsExcludeSuffix = "") :
    (r.GetFederatedGroup sub).2 = false := by
  rw [subjectRecognizer.GetFederatedGroup_snd, h, strings.HasSuffix_empty]
  simp

set_option maxRecDepth 100000 in
/-- Both usage texts end with the sentence on groups. -/
theorem Usage_groups_sentence :
    strings.HasSuffix FindCRBCommand.Usage
      "  Groups are assumed to be federated unless they have a system: prefix\n" = true ∧
    strings.HasSuffix FindRBCommand.Usage
      "  Groups are assumed to be federated unless they have a system: prefix\n" = true := by
  decide

/-- C11, evaluated on the code: with the group flags at their defaults
(`groupsIncludePrefix = ""`, `groupsExcludeSuffix = ""`) the subject with API
group `rbac.authorization.k8s.io`, kind `Group` and name `developers`, which
does not start with `system:`, is not matched by `GetFederatedGroup`, and both
find commands retain nothing from a cluster whose only binding has that
subject. -/
theorem default_group_flags_match_no_group :
    (Scenario.findCRBFlags.groupsIncludePrefix = "" ∧
      Scenario.findCRBFlags.groupsExcludeSuffix = "" ∧
      Scenario.findRBFlags.groupsIncludePrefix = "" ∧
      Scenario.findRBFlags.groupsExcludeSuffix = "") ∧
    (Scenario.developers.APIGroup = "rbac.authorization.k8s.io" ∧
      Scenario.developers.Kind = "Group" ∧
      strings.HasPrefix Scenario.developers.Name "system:" = false) ∧
    subjectRecognizer.GetFederatedGroup
      { userIncludePrefix := Scenario.findCRBFlags.userIncludePrefix
        userIncludeSuffix := Scenario.findCRBFlags.userIncludeSuffix
        groupsIncludePrefix := Scenario.findCRBFlags.groupsIncludePrefix
        groupsExcludeSuffix := Scenario.findCRBFlags.groupsExcludeSuffix
        workforcePoolName := "" }
      Scenario.developers = ("", false) ∧
    FindCRBCommand.Execute Scenario.findCRBFlags Scenario.kube 1 = some (.ok []) ∧
    FindRBCommand.Execute Scenario.findRBFlags Scenario.kube 1 = some (.ok []) := by
  refine ⟨by decide, by decide, by decide, rfl, rfl⟩

/-- With an empty `groupsExcludeSuffix` the find filter looks at users only: a
binding is kept exactly when `GetFederatedUser` matches one of its subjects. -/
theorem federatedSubjects_of_empty_exclude (rec : subjectRecognizer)
    (subjects : List Subject) (h : rec.groupsExcludeSuffix = "") :
    federatedSubjects rec subjects =
      subjects.any (fun s => (rec.GetFederatedUser s).2) := by
  rw [federatedSubjects_eq_any]
  congr 1
  funext s
  rw [subjectRecognizer.GetFederatedGroup_of_empty_exclude rec s h, Bool.or_false]
